import Mathlib

/-!
Shallow embedding of the Chirp message-dispatch core: the email admission
handler (routes/handlers of the mail module), the SMS admission handler
(web.handlers.js), the BullMQ email and SMS worker processors (src/worker.js),
the Twilio send service (services/send-sms.services.js), and the organization
usage counter (models/organization.model.js).
-/

namespace Chirp

/-! ## Data model -/

/-- Message status enum from the Email and SMS mongoose schemas:
enum ["queued", "sent", "failed"], default "queued". -/
inductive MsgStatus
  | queued
  | sent
  | failed
deriving DecidableEq, Repr

/-- Request body of a send-mail call: to, subject, content. -/
structure MailBody where
  toAddr : String
  subject : String
  content : String
deriving DecidableEq, Repr

/-- Request body of a send-sms call: from, to, subject, content
(from is a reserved word in Lean, embedded as fromNum). -/
structure SmsBody where
  fromNum : String
  toAddr : String
  subject : String
  content : String
deriving DecidableEq, Repr

/-- A persisted Email record (models of the mail module): payload fields,
status defaulting to queued, owning organization id. -/
structure EmailRecord where
  toAddr : String
  subject : String
  content : String
  status : MsgStatus := .queued
  organization : Nat
deriving DecidableEq, Repr

/-- A persisted SMS record (models/sms.model.js). -/
structure SmsRecord where
  fromNum : String
  toAddr : String
  subject : String
  content : String
  status : MsgStatus := .queued
  organization : Nat
deriving DecidableEq, Repr

/-- BullMQ job options as passed to queue.add in both admission handlers. -/
structure JobOpts where
  attempts : Nat
  backoffExponential : Bool
  backoffDelay : Nat
  timeout : Nat
deriving DecidableEq, Repr

/-- The options literal used at every queue.add call site:
attempts 3, exponential backoff with base delay 1000 ms, timeout 5000 ms. -/
def defaultJobOpts : JobOpts :=
  { attempts := 3, backoffExponential := true, backoffDelay := 1000, timeout := 5000 }

/-- An email queue job envelope: the record id plus the add-time options. -/
structure EmailJob where
  emailId : Nat
  opts : JobOpts
deriving DecidableEq, Repr

/-- An SMS queue job envelope. -/
structure SmsJob where
  smsId : Nat
  opts : JobOpts
deriving DecidableEq, Repr

/-- Organization usage sub-document (models/organization.model.js):
totalEmailsSent counter (default 0) and lastEmailSentAt timestamp. -/
structure OrgUsage where
  totalEmailsSent : Nat := 0
  lastEmailSentAt : Option Nat := none
deriving DecidableEq, Repr

/-! ## Joi validation -/

/-- Decimal digit test used by the E.164 pattern. -/
def charIsDigit (c : Char) : Bool :=
  decide ('0' ≤ c) && decide (c ≤ '9')

/-- The E.164 pattern of the SMS schema: a plus sign, a digit 1-9,
then one to fourteen further digits. -/
def e164Ok (s : String) : Bool :=
  match s.toList with
  | '+' :: d :: rest =>
      (decide ('1' ≤ d) && decide (d ≤ '9')) && rest.all charIsDigit
        && decide (1 ≤ rest.length) && decide (rest.length ≤ 14)
  | _ => false

/-- The mailSchema checks: to is a valid email address (Joi email format,
passed in as the verdict toIsEmail), subject length 1..100,
content length 1..50000. -/
def mailSchemaCheck (toIsEmail : Bool) (b : MailBody) : Bool :=
  toIsEmail
    && decide (1 ≤ b.subject.length) && decide (b.subject.length ≤ 100)
    && decide (1 ≤ b.content.length) && decide (b.content.length ≤ 50000)

/-- The smsSchema checks: from and to in E.164 format, subject length 1..50,
content length 1..1600. -/
def smsSchemaCheck (b : SmsBody) : Bool :=
  e164Ok b.fromNum && e164Ok b.toAddr
    && decide (1 ≤ b.subject.length) && decide (b.subject.length ≤ 50)
    && decide (1 ≤ b.content.length) && decide (b.content.length ≤ 1600)

/-- The object returned by schema.validate: it carries exactly two
properties, error (undefined on success, the messages on failure)
and value (the validated body). -/
structure JoiResult (α : Type) where
  error : Option (List String)
  value : α
deriving DecidableEq, Repr

/-- mailSchema.validate(req.body, ...) on the email admission path. -/
def mailSchemaValidate (toIsEmail : Bool) (b : MailBody) : JoiResult MailBody :=
  { error := if mailSchemaCheck toIsEmail b then none else some ["validation failed"],
    value := b }

/-- smsSchema.validate(req.body, ...) on the SMS admission path. -/
def smsSchemaValidate (b : SmsBody) : JoiResult SmsBody :=
  { error := if smsSchemaCheck b then none else some ["validation failed"],
    value := b }

/-! ## HTTP responses -/

/-- The JSON responses emitted by the admission handlers, flattened:
HTTP status, success flag, optional message, the errors array of the 400
response, and the created record id of the 200 response. -/
structure HttpResponse where
  status : Nat
  success : Bool
  message : Option String := none
  errorMessages : List String := []
  emailId : Option Nat := none
  smsId : Option Nat := none
deriving DecidableEq, Repr

/-! ## Email admission (send-mail handler) -/

/-- Server-side state touched by the email admission handler: the stored
usage counter of the requesting organization, the Email collection
(id, record), the email queue, and the next Mongo id. -/
structure EmailAdmState where
  usage : OrgUsage := {}
  emails : List (Nat × EmailRecord) := []
  emailJobs : List EmailJob := []
  nextId : Nat := 0
deriving DecidableEq, Repr

/-- The quota branch condition of the send-mail handler:
organization.usage && organization.usage.totalEmailsSent >= 200. -/
def quotaExceeded (orgUsage : Option OrgUsage) : Bool :=
  match orgUsage with
  | some u => decide (200 ≤ u.totalEmailsSent)
  | none => false

/-- The send-mail handler. Control flow in source order: if Redis is not
connected respond 503; validate the body and respond 400 on error;
respond 429 if the usage snapshot read by the middleware is at the 200
limit; create the Email record (status queued); await emailQueue.add
(a throw there reaches the error middleware, responding 500 with the
record already created); increment usage.totalEmailsSent and set
usage.lastEmailSentAt; respond 200 with the record id.
orgUsage is the usage field of req.organization, the snapshot loaded by
the api-key middleware, which is why it is a parameter distinct from the
stored state. -/
def sendMailHandler (redisConnected toIsEmail : Bool) (orgUsage : Option OrgUsage)
    (orgId : Nat) (body : MailBody) (enqueueOk : Bool) (now : Nat)
    (st : EmailAdmState) : HttpResponse × EmailAdmState :=
  if !redisConnected then
    ({ status := 503, success := false,
       message := some "Email service temporarily unavailable" }, st)
  else
    match (mailSchemaValidate toIsEmail body).error with
    | some msgs => ({ status := 400, success := false, errorMessages := msgs }, st)
    | none =>
      if quotaExceeded orgUsage then
        ({ status := 429, success := false,
           message := some "Daily email quota exceeded" }, st)
      else
        let id := st.nextId
        let email : EmailRecord :=
          { toAddr := body.toAddr, subject := body.subject, content := body.content,
            organization := orgId }
        let st1 : EmailAdmState :=
          { st with emails := (id, email) :: st.emails, nextId := id + 1 }
        if !enqueueOk then
          ({ status := 500, success := false,
             message := some "An unexpected error occurred" }, st1)
        else
          let st2 : EmailAdmState :=
            { st1 with emailJobs := { emailId := id, opts := defaultJobOpts } :: st1.emailJobs }
          let st3 : EmailAdmState :=
            { st2 with usage := { totalEmailsSent := st2.usage.totalEmailsSent + 1,
                                  lastEmailSentAt := some now } }
          ({ status := 200, success := true,
             message := some "Email queued successfully", emailId := some id }, st3)

/-! ## SMS admission (send-sms handler, web.handlers.js) -/

/-- Server-side state touched by the SMS admission handler. -/
structure SmsAdmState where
  totalSMSSent : Nat := 0
  lastNotificationSentAt : Option Nat := none
  smss : List (Nat × SmsRecord) := []
  smsJobs : List SmsJob := []
  smsList : List String := []
  nextId : Nat := 0
deriving DecidableEq, Repr

/-- The send-sms handler. The source performs no isRedisConnected check,
so redisConnected is unused. The source destructures err and value from
smsSchema.validate, but the Joi result carries the properties error and
value only, so the binding err reads an absent property and is always
undefined (none) and the 400 branch is dead. SMS.create persists the
record, smsQueue.add is invoked without await (enqueueOk is whether that
unawaited add succeeds; it cannot affect control flow), usage statistics
are updated, and the 200 response is sent. -/
def smsHandler (redisConnected : Bool) (orgId : Nat) (body : SmsBody)
    (enqueueOk : Bool) (now : Nat) (st : SmsAdmState) : HttpResponse × SmsAdmState :=
  let r := smsSchemaValidate body
  let err : Option (List String) := none
  match err with
  | some msgs => ({ status := 400, success := false, errorMessages := msgs }, st)
  | none =>
    let value := r.value
    let id := st.nextId
    let sms : SmsRecord :=
      { fromNum := value.fromNum, toAddr := value.toAddr, subject := value.subject,
        content := value.content, organization := orgId }
    let st1 : SmsAdmState := { st with smss := (id, sms) :: st.smss, nextId := id + 1 }
    let st2 : SmsAdmState :=
      if enqueueOk then
        { st1 with smsJobs := { smsId := id, opts := defaultJobOpts } :: st1.smsJobs }
      else st1
    let st3 : SmsAdmState :=
      { st2 with totalSMSSent := st2.totalSMSSent + 1,
                 lastNotificationSentAt := some now,
                 smsList := if st2.smsList.contains value.toAddr then st2.smsList
                            else value.toAddr :: st2.smsList }
    ({ status := 200, success := true,
       message := some "SMS queued successfully", smsId := some id }, st3)

/-! ## Dispatch workers (src/worker.js) -/

/-- Outcome of one call to the external delivery capability
(transporter.sendMail resp. the Twilio client): a provider reference on
success, an error message on failure. -/
inductive DeliverOutcome
  | ok (ref : String)
  | err (msg : String)
deriving DecidableEq, Repr

/-- The value a worker processor returns to BullMQ:
either of the shapes of the returned object literals. -/
inductive ProcReturn
  | ok (ref : String)
  | errReturn (msg : String)
deriving DecidableEq, Repr

/-- email.status = "sent"; await email.save() -/
def markSent (e : EmailRecord) : EmailRecord := { e with status := .sent }

/-- email.status = "failed"; await email.save() -/
def markFailed (e : EmailRecord) : EmailRecord := { e with status := .failed }

/-- smsMessage.status = "sent"; await smsMessage.save() -/
def markSentSms (s : SmsRecord) : SmsRecord := { s with status := .sent }

/-- smsMessage.status = "failed"; await smsMessage.save() -/
def markFailedSms (s : SmsRecord) : SmsRecord := { s with status := .failed }

/-- Observable effect of one email processor run: the value returned to
BullMQ, the record as it stands afterwards (none when it was missing),
whether the delivery capability was invoked, and the sequence of status
values written to the store, in order. -/
structure ProcEffect where
  ret : ProcReturn
  email : Option EmailRecord
  deliverInvoked : Bool
  savedStatuses : List MsgStatus
deriving DecidableEq, Repr

/-- The emailWorker processor: load the record by id (none models a
missing record); if missing, return without mutating; if the owning
organization is missing, mark failed and return; otherwise invoke
transporter.sendMail and mark sent on success; the catch block marks
failed on a delivery error and returns normally. The processor never
consults the current status of the loaded record. -/
def emailProcessor (email : Option EmailRecord) (orgExists : Bool)
    (deliver : DeliverOutcome) : ProcEffect :=
  match email with
  | none =>
      { ret := .errReturn "Email not found", email := none,
        deliverInvoked := false, savedStatuses := [] }
  | some e =>
      if !orgExists then
        { ret := .errReturn "Organization not found", email := some (markFailed e),
          deliverInvoked := false, savedStatuses := [.failed] }
      else
        match deliver with
        | .ok ref =>
            { ret := .ok ref, email := some (markSent e),
              deliverInvoked := true, savedStatuses := [.sent] }
        | .err m =>
            { ret := .errReturn m, email := some (markFailed e),
              deliverInvoked := true, savedStatuses := [.failed] }

/-- services/send-sms.services.js: the Twilio call is wrapped in a
try/catch whose catch only logs, so a provider error makes the function
return undefined (none) instead of throwing. -/
def sendSMSMessage (outcome : DeliverOutcome) : Option String :=
  match outcome with
  | .ok sid => some sid
  | .err _ => none

/-- Observable effect of one SMS processor run. -/
structure SmsProcEffect where
  ret : ProcReturn
  sms : Option SmsRecord
  deliverInvoked : Bool
  savedStatuses : List MsgStatus
deriving DecidableEq, Repr

/-- The smsWorker processor. On a provider failure sendSMSMessage returns
undefined rather than throwing, so the success branch still runs: the
record is saved with status "sent", then reading messageInstance.sid for
the log raises a TypeError, and the catch block saves status "failed".
The processor never consults the current status of the loaded record. -/
def smsProcessor (sms : Option SmsRecord) (orgExists : Bool)
    (deliver : DeliverOutcome) : SmsProcEffect :=
  match sms with
  | none =>
      { ret := .errReturn "SMS not found.", sms := none,
        deliverInvoked := false, savedStatuses := [] }
  | some s =>
      if !orgExists then
        { ret := .errReturn "Organization not found.", sms := some (markFailedSms s),
          deliverInvoked := false, savedStatuses := [.failed] }
      else
        match sendSMSMessage deliver with
        | some sid =>
            { ret := .ok sid, sms := some (markSentSms s),
              deliverInvoked := true, savedStatuses := [.sent] }
        | none =>
            { ret := .errReturn "TypeError", sms := some (markFailedSms (markSentSms s)),
              deliverInvoked := true, savedStatuses := [.sent, .failed] }

/-! ## BullMQ retry semantics -/

/-- BullMQ exponential backoff: delay = base * 2 ^ (attemptsMade - 1),
for the configured base of 1000 ms. -/
def bullBackoffDelay (base attemptsMade : Nat) : Nat :=
  base * 2 ^ (attemptsMade - 1)

/-- How one BullMQ processor attempt ends: the processor function either
returns a value (the job is then completed and never retried) or throws
(the job is retried while attempts remain, then failed). -/
inductive AttemptExit
  | returned (eff : ProcEffect)
  | thrown (msg : String)
deriving DecidableEq, Repr

/-- One attempt of the email job: the processor body catches every
delivery error and returns an object, so an attempt always exits by
returning, never by throwing. -/
def emailAttempt (email : Option EmailRecord) (orgExists : Bool)
    (deliver : DeliverOutcome) : AttemptExit :=
  .returned (emailProcessor email orgExists deliver)

/-- Result of running a job to completion under BullMQ retry semantics. -/
structure JobRun where
  email : Option EmailRecord
  attemptsMade : Nat
  jobCompleted : Bool
deriving DecidableEq, Repr

/-- The BullMQ per-job loop for a job added with a given attempts budget
(the fuel): run an attempt; if the processor returned, the job is
completed; if it threw, retry (after the backoff delay) while budget
remains, else the job is failed. -/
def runBullJob (attemptOf : Nat → Option EmailRecord → AttemptExit) :
    Nat → Nat → Option EmailRecord → JobRun
  | 0, k, e => { email := e, attemptsMade := k, jobCompleted := false }
  | fuel + 1, k, e =>
      match attemptOf (k + 1) e with
      | .returned eff =>
          { email := eff.email, attemptsMade := k + 1, jobCompleted := true }
      | .thrown _ => runBullJob attemptOf fuel (k + 1) e

/-- A full email job run: the queue delivers the job up to maxAttempts
times to the processor, whose attempts are emailAttempt; deliver gives
the provider outcome of each attempt number. -/
def runEmailJob (maxAttempts : Nat) (email : Option EmailRecord) (orgExists : Bool)
    (deliver : Nat → DeliverOutcome) : JobRun :=
  runBullJob (fun k e => emailAttempt e orgExists (deliver k)) maxAttempts 0 email

/-! ## Concurrent admission (two interleaved send-mail requests) -/

/-- The per-request local state of one admission call: the usage snapshot
read by the api-key middleware, then the handler response. -/
structure AdmReq where
  snapshot : Option OrgUsage := none
  response : Option HttpResponse := none
deriving DecidableEq, Repr

/-- One atomic phase of an admission request against the shared store:
first the middleware reads the organization (capturing the usage
snapshot), then the handler body runs on that snapshot. -/
def admStep (toIsEmail : Bool) (orgId : Nat) (body : MailBody) (now : Nat)
    (st : EmailAdmState) (r : AdmReq) : EmailAdmState × AdmReq :=
  match r.snapshot with
  | none => (st, { r with snapshot := some st.usage })
  | some snap =>
      match r.response with
      | none =>
          let p := sendMailHandler true toIsEmail (some snap) orgId body true now st
          (p.2, { r with response := some p.1 })
      | some _ => (st, r)

/-- Interleave two admission requests for the same organization under a
schedule: true steps request A, false steps request B. -/
def runSched (toIsEmail : Bool) (orgId : Nat) (body : MailBody) (now : Nat) :
    List Bool → EmailAdmState → AdmReq → AdmReq → EmailAdmState × AdmReq × AdmReq
  | [], st, a, b => (st, a, b)
  | true :: rest, st, a, b =>
      let p := admStep toIsEmail orgId body now st a
      runSched toIsEmail orgId body now rest p.1 p.2 b
  | false :: rest, st, a, b =>
      let p := admStep toIsEmail orgId body now st b
      runSched toIsEmail orgId body now rest p.1 a p.2

/-- One complete sequential admission request: the middleware snapshot is
the usage stored at the moment the request starts. -/
def runReq (toIsEmail : Bool) (orgId : Nat) (body : MailBody) (now : Nat)
    (st : EmailAdmState) : HttpResponse × EmailAdmState :=
  sendMailHandler true toIsEmail (some st.usage) orgId body true now st

/-- n admission requests run to completion one after another. -/
def seqRuns (toIsEmail : Bool) (orgId : Nat) (body : MailBody) (now : Nat) :
    Nat → EmailAdmState → EmailAdmState
  | 0, st => st
  | n + 1, st => seqRuns toIsEmail orgId body now n (runReq toIsEmail orgId body now st).2

/-! ## Concrete fixtures -/

/-- A request body that satisfies mailSchema. -/
def mailBody0 : MailBody :=
  { toAddr := "user@example.com", subject := "hi", content := "hello" }

/-- A request body that satisfies smsSchema. -/
def smsBody0 : SmsBody :=
  { fromNum := "+15550001111", toAddr := "+15550002222", subject := "hi",
    content := "hello" }

/-- A request body whose to field is not in E.164 format. -/
def smsBodyBad : SmsBody :=
  { fromNum := "+15550001111", toAddr := "12345", subject := "hi",
    content := "hello" }

/-- A queued email record. -/
def emailQueued0 : EmailRecord :=
  { toAddr := "a@b.c", subject := "s", content := "c", organization := 0 }

/-- An email record whose status is already sent. -/
def emailSent0 : EmailRecord := { emailQueued0 with status := .sent }

/-- An email record whose status is already failed. -/
def emailFailed0 : EmailRecord := { emailQueued0 with status := .failed }

/-- A second sent email record, for the duplicate-job scenario. -/
def emailSent1 : EmailRecord :=
  { toAddr := "d@e.f", subject := "t", content := "d", status := .sent,
    organization := 1 }

/-- A second failed email record. -/
def emailFailed1 : EmailRecord := { emailSent1 with status := .failed }

/-- A queued SMS record. -/
def smsQueued0 : SmsRecord :=
  { fromNum := "+15550001111", toAddr := "+15550002222", subject := "s",
    content := "c", organization := 0 }

/-! ## Theorems -/

/-- Claim C4, counterexample: applying MarkFailed to a record that is
already Sent is not a no-op: it overwrites the first terminal outcome. -/
theorem mark_failed_overwrites_mark_sent :
    (markSent emailQueued0).status = .sent ∧
    (markFailed (markSent emailQueued0)).status = .failed ∧
    markFailed (markSent emailQueued0) ≠ markSent emailQueued0 := by
  refine ⟨rfl, rfl, ?_⟩
  decide

/-- Claim C4, amended: the terminal marks assign the status
unconditionally, so applying the same mark twice equals applying it once,
but applying the other mark to an already-terminal record overwrites the
first terminal outcome (last write wins) instead of being a no-op. -/
theorem mark_terminal_last_write_wins (e : EmailRecord) :
    markSent (markSent e) = markSent e ∧
    markFailed (markFailed e) = markFailed e ∧
    markFailed (markSent e) = markFailed e ∧
    markSent (markFailed e) = markSent e :=
  ⟨rfl, rfl, rfl, rfl⟩

/-- Claim C5: an SMS body that fails the smsSchema (to not in E.164
format) is nevertheless admitted: the handler destructures the property
err from the Joi result, whose properties are error and value, so the
validation branch is dead and the invalid record is persisted, enqueued
and reported queued with 200. An invalid email body, by contrast, is
rejected with 400 and no record or job. -/
theorem invalid_sms_admitted :
    smsSchemaCheck smsBodyBad = false ∧
    (smsSchemaValidate smsBodyBad).error = some ["validation failed"] ∧
    (smsHandler true 0 smsBodyBad true 0 {}).1.status = 200 ∧
    (smsHandler true 0 smsBodyBad true 0 {}).1.success = true ∧
    (smsHandler true 0 smsBodyBad true 0 {}).2.smss =
      [(0, { fromNum := "+15550001111", toAddr := "12345", subject := "hi",
             content := "hello", status := .queued, organization := 0 })] ∧
    (smsHandler true 0 smsBodyBad true 0 {}).2.smsJobs =
      [{ smsId := 0, opts := defaultJobOpts }] ∧
    (sendMailHandler true false (some {}) 0 mailBody0 true 0 {}).1.status = 400 ∧
    (sendMailHandler true false (some {}) 0 mailBody0 true 0 {}).2 = {} := by
  decide

/-- Claim C7, counterexample: with the Redis connection down the SMS
admission call does not fail closed: the handler performs no
connectivity check, creates the record, and answers 200 success even
though the unawaited enqueue fails. -/
theorem sms_admitted_during_outage :
    (smsHandler false 0 smsBody0 false 0 {}).1.status = 200 ∧
    (smsHandler false 0 smsBody0 false 0 {}).1.success = true ∧
    (smsHandler false 0 smsBody0 false 0 {}).2.smss =
      [(0, { fromNum := "+15550001111", toAddr := "+15550002222",
             subject := "hi", content := "hello", status := .queued,
             organization := 0 })] ∧
    (smsHandler false 0 smsBody0 false 0 {}).2.smsJobs = [] := by
  decide

/-- Claim C7, amended: when Redis is unreachable the email admission
handler fails closed, answering 503 with no record created, no job
enqueued and no counter change; the SMS handler performs no such check
and still creates the record and answers success during the outage. -/
theorem fail_closed_email_not_sms :
    (∀ (t : Bool) (ou : Option OrgUsage) (orgId : Nat) (body : MailBody)
        (e : Bool) (n : Nat) (st : EmailAdmState),
      sendMailHandler false t ou orgId body e n st =
        ({ status := 503, success := false,
           message := some "Email service temporarily unavailable" }, st)) ∧
    (smsHandler false 0 smsBody0 false 0 {}).1.success = true ∧
    (smsHandler false 0 smsBody0 false 0 {}).2.smss.length = 1 := by
  refine ⟨fun t ou orgId body e n st => rfl, ?_, ?_⟩ <;> decide

/-- Claim C10: the SMS success response is independent of the unawaited
smsQueue.add outcome: the caller observes 200 with the created id whether
or not the enqueue succeeds, and when it fails the queued record is
persisted with no job added. -/
theorem sms_response_ignores_enqueue (rc : Bool) (orgId now : Nat)
    (body : SmsBody) (st : SmsAdmState) :
    (smsHandler rc orgId body true now st).1 =
      (smsHandler rc orgId body false now st).1 ∧
    (smsHandler rc orgId body false now st).1.status = 200 ∧
    (smsHandler rc orgId body false now st).1.success = true ∧
    (smsHandler rc orgId body false now st).1.smsId = some st.nextId ∧
    (smsHandler rc orgId body false now st).2.smsJobs = st.smsJobs ∧
    (st.nextId,
      ({ fromNum := body.fromNum, toAddr := body.toAddr, subject := body.subject,
         content := body.content, status := .queued,
         organization := orgId } : SmsRecord)) ∈
      (smsHandler rc orgId body false now st).2.smss := by
  refine ⟨rfl, rfl, rfl, rfl, rfl, ?_⟩
  exact List.mem_cons_self _ _

/-- Claim C2, counterexample: a record whose status is already sent, when
its job is processed again (a duplicate or late job) and delivery fails,
is saved with status failed: the terminal value Sent is changed to
Failed, which the claim rules out. -/
theorem sent_record_reprocessed_to_failed :
    emailSent0.status = .sent ∧
    (emailProcessor (some emailSent0) true (.err "timeout")).email =
      some { emailSent0 with status := .failed } ∧
    (emailProcessor (some emailSent0) true (.err "timeout")).savedStatuses =
      [.failed] := by
  decide

/-- Claim C2, amended: a record processed while Queued is only ever moved
to Sent or Failed, never back to Queued; but neither worker guards
terminal states: reprocessing a duplicate job for an already-Failed
record on a now-successful delivery saves Sent, and on the SMS path a
single provider failure saves Sent and then overwrites it with Failed in
the same run (the swallowed Twilio error makes the success branch run
before the TypeError reaches the catch). -/
theorem queued_only_to_terminal_but_unguarded :
    (∀ (ta s c : String) (org : Nat) (orgE : Bool) (d : DeliverOutcome),
      (emailProcessor
          (some { toAddr := ta, subject := s, content := c, status := .queued,
                  organization := org }) orgE d).email.map EmailRecord.status =
          some .sent ∨
      (emailProcessor
          (some { toAddr := ta, subject := s, content := c, status := .queued,
                  organization := org }) orgE d).email.map EmailRecord.status =
          some .failed) ∧
    (emailProcessor (some emailFailed0) true (.ok "mid")).email.map
        EmailRecord.status = some .sent ∧
    (smsProcessor (some smsQueued0) true (.err "boom")).savedStatuses =
      [.sent, .failed] := by
  refine ⟨?_, by decide, by decide⟩
  intro ta s c org orgE d
  cases orgE with
  | false => exact Or.inr rfl
  | true =>
      cases d with
      | ok ref => exact Or.inl rfl
      | err m => exact Or.inr rfl

/-- Claim C8, counterexample: a dequeued job whose record is already
terminal (status sent) is not acknowledged and skipped: the worker
invokes the delivery capability again and rewrites the status. -/
theorem terminal_record_not_skipped :
    emailSent1.status = .sent ∧
    (emailProcessor (some emailSent1) true (.ok "mid-2")).deliverInvoked = true ∧
    (emailProcessor (some emailSent1) true (.ok "mid-2")).savedStatuses =
      [.sent] := by
  decide

/-- Claim C8, amended: a job whose record is missing is returned from
(acknowledged) without invoking delivery and without mutating anything,
in both workers; but a record that is already terminal is not skipped:
the worker invokes delivery again and overwrites its status. -/
theorem missing_skipped_terminal_reprocessed :
    (∀ (orgE : Bool) (d : DeliverOutcome),
      emailProcessor none orgE d =
        { ret := .errReturn "Email not found", email := none,
          deliverInvoked := false, savedStatuses := [] }) ∧
    (∀ (orgE : Bool) (d : DeliverOutcome),
      smsProcessor none orgE d =
        { ret := .errReturn "SMS not found.", sms := none,
          deliverInvoked := false, savedStatuses := [] }) ∧
    (emailProcessor (some emailFailed1) true (.ok "m")).deliverInvoked = true ∧
    (emailProcessor (some emailFailed1) true (.ok "m")).email.map
        EmailRecord.status = some .sent := by
  exact ⟨fun orgE d => rfl, fun orgE d => rfl, by decide, by decide⟩

/-- Claim C3: the admission path enqueues every email job with attempts 3
and exponential backoff from a 1000 ms base, but the worker processor
catches every delivery error and returns an object instead of rethrowing,
so BullMQ records the job as completed after the first attempt and never
retries: a message whose delivery fails transiently on every attempt ends
with status failed after exactly one attempt, not three. -/
theorem transient_failures_never_retried :
    (sendMailHandler true true (some {}) 0 mailBody0 true 0 {}).2.emailJobs =
      [{ emailId := 0, opts := defaultJobOpts }] ∧
    defaultJobOpts.attempts = 3 ∧
    defaultJobOpts.backoffExponential = true ∧
    defaultJobOpts.backoffDelay = 1000 ∧
    bullBackoffDelay 1000 1 = 1000 ∧
    bullBackoffDelay 1000 2 = 2000 ∧
    runEmailJob 3 (some emailQueued0) true (fun _ => .err "ETIMEDOUT") =
      { email := some { emailQueued0 with status := .failed },
        attemptsMade := 1, jobCompleted := true } := by
  refine ⟨by decide, rfl, rfl, rfl, rfl, rfl, rfl⟩

/-- Claim C6: an email admission call whose usage snapshot is at or above
the 200 limit is rejected with no side effects: whatever the connection
state, validation verdict and enqueue outcome, the response is a failure
and the store (counter, records, jobs) is returned unchanged. -/
theorem quota_rejection_no_side_effects (rc t e : Bool) (orgId now k : Nat)
    (last : Option Nat) (body : MailBody) (es : List (Nat × EmailRecord))
    (js : List EmailJob) (nid : Nat) :
    (sendMailHandler rc t
        (some { totalEmailsSent := 200 + k, lastEmailSentAt := last })
        orgId body e now
        { usage := { totalEmailsSent := 200 + k, lastEmailSentAt := last },
          emails := es, emailJobs := js, nextId := nid }).2 =
      { usage := { totalEmailsSent := 200 + k, lastEmailSentAt := last },
        emails := es, emailJobs := js, nextId := nid } ∧
    (sendMailHandler rc t
        (some { totalEmailsSent := 200 + k, lastEmailSentAt := last })
        orgId body e now
        { usage := { totalEmailsSent := 200 + k, lastEmailSentAt := last },
          emails := es, emailJobs := js, nextId := nid }).1.success = false := by
  cases rc with
  | false => exact ⟨rfl, rfl⟩
  | true =>
      by_cases hv : mailSchemaCheck t body
      · constructor <;>
          simp [sendMailHandler, mailSchemaValidate, hv, quotaExceeded]
      · constructor <;>
          simp [sendMailHandler, mailSchemaValidate, hv]

/-- Claim C9: the quota check reads only the lifetime totalEmailsSent
counter; nothing in the code resets it when a window elapses. A tenant
whose counter has reached 200 is rejected with 429 and an unchanged store
for every value of lastEmailSentAt and every current time, in particular
at any time in a later window: despite the response text "Daily email
quota exceeded", the tenant never regains admission. -/
theorem quota_counter_never_resets (last now k : Nat) (st : EmailAdmState) :
    (sendMailHandler true true
        (some { totalEmailsSent := 200 + k, lastEmailSentAt := some last })
        0 mailBody0 true now st).1.status = 429 ∧
    (sendMailHandler true true
        (some { totalEmailsSent := 200 + k, lastEmailSentAt := some last })
        0 mailBody0 true now st).2 = st := by
  have hv : mailSchemaCheck true mailBody0 = true := by decide
  constructor <;>
    simp [sendMailHandler, mailSchemaValidate, hv, quotaExceeded]

/-- One sequential admission request cannot push the stored counter past
the 200 limit: below the limit it increments by at most one, at the limit
the quota branch rejects and leaves the state unchanged. -/
theorem runReq_usage_le (t : Bool) (orgId : Nat) (body : MailBody) (now : Nat)
    (st : EmailAdmState) (h : st.usage.totalEmailsSent ≤ 200) :
    (runReq t orgId body now st).2.usage.totalEmailsSent ≤ 200 := by
  by_cases hv : mailSchemaCheck t body
  · by_cases hq : (200 : Nat) ≤ st.usage.totalEmailsSent
    · simpa [runReq, sendMailHandler, mailSchemaValidate, hv, quotaExceeded, hq]
        using h
    · have hlt : st.usage.totalEmailsSent < 200 := Nat.lt_of_not_le hq
      simp [runReq, sendMailHandler, mailSchemaValidate, hv, quotaExceeded, hq]
      omega
  · simpa [runReq, sendMailHandler, mailSchemaValidate, hv] using h

/-- Sequential admissions never push the stored counter past 200. -/
theorem seqRuns_usage_le (t : Bool) (orgId : Nat) (body : MailBody) (now : Nat) :
    ∀ (n : Nat) (st : EmailAdmState), st.usage.totalEmailsSent ≤ 200 →
      (seqRuns t orgId body now n st).usage.totalEmailsSent ≤ 200
  | 0, _, h => h
  | n + 1, st, h =>
      seqRuns_usage_le t orgId body now n _ (runReq_usage_le t orgId body now st h)

/-- Claim C1, counterexample: admission is a check of the middleware
usage snapshot followed by a separate increment, not an atomic
check-and-increment. Interleaving two concurrent admission calls for a
tenant whose counter stands at 199 — both middleware reads before either
handler body — admits both: each call answers 200 success and the window
ends with 201 admitted messages, above the 200 limit, where the claim
requires one success and one QuotaExceeded rejection. -/
theorem concurrent_admission_exceeds_limit :
    (runSched true 0 mailBody0 0 [true, false, true, false]
        { usage := { totalEmailsSent := 199 } } {} {}).1.usage.totalEmailsSent
      = 201 ∧
    (runSched true 0 mailBody0 0 [true, false, true, false]
        { usage := { totalEmailsSent := 199 } } {} {}).2.1.response.map
        HttpResponse.success = some true ∧
    (runSched true 0 mailBody0 0 [true, false, true, false]
        { usage := { totalEmailsSent := 199 } } {} {}).2.2.response.map
        HttpResponse.success = some true ∧
    (runSched true 0 mailBody0 0 [true, false, true, false]
        { usage := { totalEmailsSent := 199 } } {} {}).2.1.response.map
        HttpResponse.status = some 200 ∧
    (runSched true 0 mailBody0 0 [true, false, true, false]
        { usage := { totalEmailsSent := 199 } } {} {}).2.2.response.map
        HttpResponse.status = some 200 := by
  decide

/-- Claim C1, amended: the quota gate is a non-atomic check-then-increment
on a per-request usage snapshot. Under sequential admission the stored
counter never exceeds the 200 limit, but there is an interleaving of two
concurrent admission calls, from a counter at 199, in which both calls
succeed and the counter reaches 201. -/
theorem admission_check_then_increment :
    (∀ (t : Bool) (orgId : Nat) (body : MailBody) (now n k : Nat)
        (last : Option Nat) (es : List (Nat × EmailRecord)) (js : List EmailJob)
        (nid : Nat),
      (seqRuns t orgId body now n
          { usage := { totalEmailsSent := 200 - k, lastEmailSentAt := last },
            emails := es, emailJobs := js, nextId := nid }).usage.totalEmailsSent
        ≤ 200) ∧
    ((runSched true 0 mailBody0 0 [true, false, true, false]
        { usage := { totalEmailsSent := 199 } } {} {}).1.usage.totalEmailsSent
      = 201 ∧
     (runSched true 0 mailBody0 0 [true, false, true, false]
        { usage := { totalEmailsSent := 199 } } {} {}).2.1.response.map
        HttpResponse.success = some true ∧
     (runSched true 0 mailBody0 0 [true, false, true, false]
        { usage := { totalEmailsSent := 199 } } {} {}).2.2.response.map
        HttpResponse.success = some true) := by
  constructor
  · intro t orgId body now n k last es js nid
    exact seqRuns_usage_le t orgId body now n _ (by simp [Nat.sub_le])
  · exact ⟨by decide, by decide, by decide⟩

end Chirp
